import Mathlib

/-!
Verification of the discordgo data-model core (`structs.go`): permission and
intent bit-flag constants, mention formatting helpers, and the custom JSON
decoding of `TimeStamps`, `TooManyRequests` and `Activity`.

Modelling conventions:
* Go untyped/`int`/`int64` constants become `Nat` (all values are nonnegative
  and below `2^63`); bitwise `|` and `&` become `|||` and `&&&`.
* A Go `float64` value is modelled by the exact rational number it denotes
  (every finite float is a rational).  `math.Modf` is an exact operation on
  floats, and so is float-to-int truncation; the one float multiplication the
  code performs (`frac*1000`) is modelled as exact rational multiplication.
* Go's conversion `int64(f)` of a `float64` truncates toward zero
  (`goTrunc`); its behaviour on values outside the `int64` range is
  implementation-specific and every theorem below keeps those conversions in
  range.
* Go `int64` addition and multiplication wrap around two's complement
  (`wrap64`), as the Go specification defines for signed overflow.
* A method `func (t *T) UnmarshalJSON(b []byte) error` that decodes into a
  wire-shaped shadow struct and then assigns fields is modelled as a function
  from the prior value of `*t` and the result of the underlying
  `json.Unmarshal` call (an `Except` value: the parse error, or the decoded
  shadow struct) to the new value of `*t` paired with the returned error.
-/

namespace Discordgo

/-- Two's complement wraparound of a mathematical integer into the `int64`
range, as Go defines for overflow of signed `+` and `*`. -/
def wrap64 (n : ℤ) : ℤ := (n + 2 ^ 63) % 2 ^ 64 - 2 ^ 63

/-- Go's `int64(f)` conversion of a `float64`: truncation toward zero. -/
def goTrunc (q : ℚ) : ℤ := if 0 ≤ q then ⌊q⌋ else ⌈q⌉

/-! Permission bit constants (`structs.go`, the four `const` blocks). -/

def PermissionReadMessages : Nat := 0x0000000000000400
def PermissionSendMessages : Nat := 0x0000000000000800
def PermissionSendTTSMessages : Nat := 0x0000000000001000
def PermissionManageMessages : Nat := 0x0000000000002000
def PermissionEmbedLinks : Nat := 0x0000000000004000
def PermissionAttachFiles : Nat := 0x0000000000008000
def PermissionReadMessageHistory : Nat := 0x0000000000010000
def PermissionMentionEveryone : Nat := 0x0000000000020000
def PermissionUseExternalEmojis : Nat := 0x0000000000040000
def PermissionUseSlashCommands : Nat := 0x0000000080000000

def PermissionVoicePrioritySpeaker : Nat := 0x0000000000000100
def PermissionVoiceStreamVideo : Nat := 0x0000000000000200
def PermissionVoiceConnect : Nat := 0x0000000000100000
def PermissionVoiceSpeak : Nat := 0x0000000000200000
def PermissionVoiceMuteMembers : Nat := 0x0000000000400000
def PermissionVoiceDeafenMembers : Nat := 0x0000000000800000
def PermissionVoiceMoveMembers : Nat := 0x0000000001000000
def PermissionVoiceUseVAD : Nat := 0x0000000002000000
def PermissionVoiceRequestToSpeak : Nat := 0x0000000100000000

def PermissionChangeNickname : Nat := 0x0000000004000000
def PermissionManageNicknames : Nat := 0x0000000008000000
def PermissionManageRoles : Nat := 0x0000000010000000
def PermissionManageWebhooks : Nat := 0x0000000020000000
def PermissionManageEmojis : Nat := 0x0000000040000000

def PermissionCreateInstantInvite : Nat := 0x0000000000000001
def PermissionKickMembers : Nat := 0x0000000000000002
def PermissionBanMembers : Nat := 0x0000000000000004
def PermissionAdministrator : Nat := 0x0000000000000008
def PermissionManageChannels : Nat := 0x0000000000000010
def PermissionManageServer : Nat := 0x0000000000000020
def PermissionAddReactions : Nat := 0x0000000000000040
def PermissionViewAuditLogs : Nat := 0x0000000000000080
def PermissionViewChannel : Nat := 0x0000000000000400
def PermissionViewGuildInsights : Nat := 0x0000000000080000

def PermissionAllText : Nat :=
  PermissionViewChannel |||
    PermissionSendMessages |||
    PermissionSendTTSMessages |||
    PermissionManageMessages |||
    PermissionEmbedLinks |||
    PermissionAttachFiles |||
    PermissionReadMessageHistory |||
    PermissionMentionEveryone

def PermissionAllVoice : Nat :=
  PermissionViewChannel |||
    PermissionVoiceConnect |||
    PermissionVoiceSpeak |||
    PermissionVoiceMuteMembers |||
    PermissionVoiceDeafenMembers |||
    PermissionVoiceMoveMembers |||
    PermissionVoiceUseVAD |||
    PermissionVoicePrioritySpeaker

def PermissionAllChannel : Nat :=
  PermissionAllText |||
    PermissionAllVoice |||
    PermissionCreateInstantInvite |||
    PermissionManageRoles |||
    PermissionManageChannels |||
    PermissionAddReactions |||
    PermissionViewAuditLogs

def PermissionAll : Nat :=
  PermissionAllChannel |||
    PermissionKickMembers |||
    PermissionBanMembers |||
    PermissionManageServer |||
    PermissionAdministrator |||
    PermissionManageWebhooks |||
    PermissionManageEmojis

/-! Gateway intent bit constants (`structs.go`, `Intent` const block). -/

def IntentsGuilds : Nat := 1 <<< 0
def IntentsGuildMembers : Nat := 1 <<< 1
def IntentsGuildBans : Nat := 1 <<< 2
def IntentsGuildEmojis : Nat := 1 <<< 3
def IntentsGuildIntegrations : Nat := 1 <<< 4
def IntentsGuildWebhooks : Nat := 1 <<< 5
def IntentsGuildInvites : Nat := 1 <<< 6
def IntentsGuildVoiceStates : Nat := 1 <<< 7
def IntentsGuildPresences : Nat := 1 <<< 8
def IntentsGuildMessages : Nat := 1 <<< 9
def IntentsGuildMessageReactions : Nat := 1 <<< 10
def IntentsGuildMessageTyping : Nat := 1 <<< 11
def IntentsDirectMessages : Nat := 1 <<< 12
def IntentsDirectMessageReactions : Nat := 1 <<< 13
def IntentsDirectMessageTyping : Nat := 1 <<< 14
def IntentsGuildScheduledEvents : Nat := 1 <<< 16

def IntentsAllWithoutPrivileged : Nat :=
  IntentsGuilds |||
    IntentsGuildBans |||
    IntentsGuildEmojis |||
    IntentsGuildIntegrations |||
    IntentsGuildWebhooks |||
    IntentsGuildInvites |||
    IntentsGuildVoiceStates |||
    IntentsGuildMessages |||
    IntentsGuildMessageReactions |||
    IntentsGuildMessageTyping |||
    IntentsDirectMessages |||
    IntentsDirectMessageReactions |||
    IntentsDirectMessageTyping |||
    IntentsGuildScheduledEvents

def IntentsAll : Nat :=
  IntentsAllWithoutPrivileged |||
    IntentsGuildMembers |||
    IntentsGuildPresences

def IntentsNone : Nat := 0

/-- Modelled from the spec: `hasPermission(mask, bit)` is described in §4.1 of
the specification but its code is not part of the supplied source files (only
the constants it operates on are).  Per the spec it returns true iff
`(mask & bit) == bit` over 64-bit masks. -/
def hasPermission (mask bit : Nat) : Bool := mask &&& bit == bit

/-! Entity structures and mention formatting helpers.  Only the fields the
formatting helpers read are modelled; the remaining fields of `Channel`,
`Role`, `Member` and `User` are plain data carried along unchanged and touched
by no operation verified here. -/

structure User where
  ID : String
  deriving DecidableEq

structure Channel where
  ID : String
  deriving DecidableEq

/-- `func (c *Channel) Mention() string { return fmt.Sprintf("<#%s>", c.ID) }` -/
def Channel.Mention (c : Channel) : String := "<#" ++ c.ID ++ ">"

structure Role where
  ID : String
  deriving DecidableEq

/-- `func (r *Role) Mention() string { return fmt.Sprintf("<@&%s>", r.ID) }` -/
def Role.Mention (r : Role) : String := "<@&" ++ r.ID ++ ">"

/-- `Member.User` is a pointer field (`User *User`); `none` models a nil
pointer. -/
structure Member where
  User : Option User
  deriving DecidableEq

/-- `func (m *Member) Mention() string { return "<@!" + m.User.ID + ">" }`.
The body dereferences `m.User` unconditionally; the dereference of a nil
pointer has no defined result (a runtime panic), modelled as `none`. -/
def Member.Mention (m : Member) : Option String :=
  m.User.map fun u => "<@!" ++ u.ID ++ ">"

/-! `TimeStamps` and its custom JSON decoding. -/

structure TimeStamps where
  EndTimestamp : ℤ
  StartTimestamp : ℤ
  deriving DecidableEq

/-- The anonymous wire-shaped shadow struct of `TimeStamps.UnmarshalJSON`:
`end` and `start` are `float64` millisecond timestamps. -/
structure TimeStampsWire where
  End : ℚ
  Start : ℚ
  deriving DecidableEq

/-- `func (t *TimeStamps) UnmarshalJSON(b []byte) error`: decode into the
shadow struct, propagate a parse error unchanged (leaving `*t` untouched),
otherwise truncate both floats to `int64`. -/
def TimeStamps.unmarshalJSON (t : TimeStamps) (parsed : Except String TimeStampsWire) :
    TimeStamps × Option String :=
  match parsed with
  | .error e => (t, some e)
  | .ok temp => ({ EndTimestamp := goTrunc temp.End, StartTimestamp := goTrunc temp.Start }, none)

/-! `TooManyRequests` and its custom JSON decoding.  `RetryAfter` is a
`time.Duration`: an `int64` count of nanoseconds. -/

structure TooManyRequests where
  Bucket : String
  Message : String
  RetryAfter : ℤ
  deriving DecidableEq

/-- The wire-shaped shadow struct of `TooManyRequests.UnmarshalJSON`:
`retry_after` is a `float64` count of seconds. -/
structure TooManyRequestsWire where
  Bucket : String
  Message : String
  RetryAfter : ℚ
  deriving DecidableEq

/-- `whole, frac := math.Modf(u.RetryAfter)` followed by
`time.Duration(whole)*time.Second + time.Duration(frac*1000)*time.Millisecond`:
`goTrunc q` is the combination of `Modf`'s integral part with the
float-to-`int64` conversion (exact), `q - goTrunc q` is `frac`, and each
`int64` multiplication and the addition wraps around. -/
def retryAfterDuration (q : ℚ) : ℤ :=
  wrap64 (wrap64 (goTrunc q * 1000000000) +
    wrap64 (goTrunc ((q - (goTrunc q : ℚ)) * 1000) * 1000000))

/-- `func (t *TooManyRequests) UnmarshalJSON(b []byte) error`: decode into the
shadow struct, propagate a parse error unchanged (leaving `*t` untouched),
otherwise copy `Bucket` and `Message` and convert `RetryAfter`. -/
def TooManyRequests.unmarshalJSON (t : TooManyRequests)
    (parsed : Except String TooManyRequestsWire) : TooManyRequests × Option String :=
  match parsed with
  | .error e => (t, some e)
  | .ok u =>
    ({ Bucket := u.Bucket, Message := u.Message,
       RetryAfter := retryAfterDuration u.RetryAfter }, none)

/-! `Activity` and its custom JSON decoding. -/

structure Party where
  ID : String
  Size : List ℤ
  deriving DecidableEq

structure Assets where
  LargeImageID : String
  SmallImageID : String
  LargeText : String
  SmallText : String
  deriving DecidableEq

structure Secrets where
  Join : String
  Spectate : String
  Match : String
  deriving DecidableEq

structure Emoji where
  ID : String
  Name : String
  Roles : List String
  User : Option User
  RequireColons : Bool
  Managed : Bool
  Animated : Bool
  Available : Bool
  deriving DecidableEq

/-- The internal `Activity`.  `Type` (an `ActivityType`, i.e. an `int`) is
written `Type'` because `Type` is reserved in Lean; `CreatedAt` is a
`time.Time`, modelled as its count of nanoseconds since the Unix epoch (the
value `time.Unix(0, n)` represents). -/
structure Activity where
  Name : String
  Type' : ℤ
  URL : String
  CreatedAt : ℤ
  ApplicationID : String
  State : String
  Details : String
  Timestamps : TimeStamps
  Emoji : Emoji
  Party : Party
  Assets : Assets
  Secrets : Secrets
  Instance : Bool
  Flags : ℤ
  deriving DecidableEq

/-- The wire-shaped shadow struct of `Activity.UnmarshalJSON`: identical to
`Activity` except that `created_at` is an `int64` count of milliseconds since
the Unix epoch. -/
structure ActivityWire where
  Name : String
  Type' : ℤ
  URL : String
  CreatedAt : ℤ
  ApplicationID : String
  State : String
  Details : String
  Timestamps : TimeStamps
  Emoji : Emoji
  Party : Party
  Assets : Assets
  Secrets : Secrets
  Instance : Bool
  Flags : ℤ
  deriving DecidableEq

/-- `func (activity *Activity) UnmarshalJSON(b []byte) error`: decode into the
shadow struct, propagate a parse error unchanged, otherwise set
`CreatedAt = time.Unix(0, temp.CreatedAt*1000000)` — an `int64`
multiplication, which wraps — and copy every other field unchanged. -/
def Activity.unmarshalJSON (a : Activity) (parsed : Except String ActivityWire) :
    Activity × Option String :=
  match parsed with
  | .error e => (a, some e)
  | .ok temp =>
    ({ Name := temp.Name, Type' := temp.Type', URL := temp.URL,
       CreatedAt := wrap64 (temp.CreatedAt * 1000000),
       ApplicationID := temp.ApplicationID, State := temp.State,
       Details := temp.Details, Timestamps := temp.Timestamps,
       Emoji := temp.Emoji, Party := temp.Party, Assets := temp.Assets,
       Secrets := temp.Secrets, Instance := temp.Instance,
       Flags := temp.Flags }, none)

/-! Concrete inputs used to exercise `Activity.unmarshalJSON`. -/

/-- An all-zero prior `Activity` value (the zero value of the Go struct). -/
def activityZero : Activity :=
  ⟨"", 0, "", 0, "", "", "", ⟨0, 0⟩, ⟨"", "", [], none, false, false, false, false⟩,
    ⟨"", []⟩, ⟨"", "", "", ""⟩, ⟨"", "", ""⟩, false, 0⟩

/-- A wire payload whose `created_at` is `10^13` milliseconds: decoding it
succeeds, and `10^13 * 10^6` nanoseconds overflows `int64`. -/
def activityWireBig : ActivityWire :=
  ⟨"", 0, "", 10000000000000, "", "", "", ⟨0, 0⟩,
    ⟨"", "", [], none, false, false, false, false⟩, ⟨"", []⟩, ⟨"", "", "", ""⟩,
    ⟨"", "", ""⟩, false, 0⟩

/-- A wire payload whose `created_at` is `1609459200000` milliseconds
(2021-01-01), well inside the `int64` nanosecond range. -/
def activityWire2021 : ActivityWire :=
  ⟨"game", 0, "", 1609459200000, "", "", "", ⟨0, 0⟩,
    ⟨"", "", [], none, false, false, false, false⟩, ⟨"", []⟩, ⟨"", "", "", ""⟩,
    ⟨"", "", ""⟩, false, 0⟩

/-! Helper lemmas. -/

/-- Wraparound is the identity on the `int64` range. -/
theorem wrap64_eq_of_bounds {n : ℤ} (h1 : -(2 ^ 63) ≤ n) (h2 : n < 2 ^ 63) :
    wrap64 n = n := by
  have h3 : (0 : ℤ) ≤ n + 2 ^ 63 := by linarith
  have h4 : n + 2 ^ 63 < 2 ^ 64 := by
    have h5 : (2 : ℤ) ^ 64 = 2 ^ 63 + 2 ^ 63 := by norm_num
    linarith
  rw [wrap64, Int.emod_eq_of_lt h3 h4]
  ring

/-! Claim theorems. -/

/-- C1: each composite permission constant equals the bitwise OR of exactly
its documented member bits and nothing else. -/
theorem permission_composites_eq_or_of_members :
    PermissionAllText =
      PermissionViewChannel ||| PermissionSendMessages ||| PermissionSendTTSMessages |||
        PermissionManageMessages ||| PermissionEmbedLinks ||| PermissionAttachFiles |||
        PermissionReadMessageHistory ||| PermissionMentionEveryone ∧
    PermissionAllVoice =
      PermissionViewChannel ||| PermissionVoiceConnect ||| PermissionVoiceSpeak |||
        PermissionVoiceMuteMembers ||| PermissionVoiceDeafenMembers |||
        PermissionVoiceMoveMembers ||| PermissionVoiceUseVAD |||
        PermissionVoicePrioritySpeaker ∧
    PermissionAllChannel =
      PermissionAllText ||| PermissionAllVoice ||| PermissionCreateInstantInvite |||
        PermissionManageRoles ||| PermissionManageChannels ||| PermissionAddReactions |||
        PermissionViewAuditLogs ∧
    PermissionAll =
      PermissionAllChannel ||| PermissionKickMembers ||| PermissionBanMembers |||
        PermissionManageServer ||| PermissionAdministrator ||| PermissionManageWebhooks |||
        PermissionManageEmojis := by
  decide

/-- C2: the privileged intent bits (guild members, guild presences) are
excluded from `IntentsAllWithoutPrivileged` and included in `IntentsAll`. -/
theorem intents_privileged_bits :
    IntentsAllWithoutPrivileged &&& IntentsGuildMembers = 0 ∧
    IntentsAllWithoutPrivileged &&& IntentsGuildPresences = 0 ∧
    IntentsAll &&& IntentsGuildMembers = IntentsGuildMembers ∧
    IntentsAll &&& IntentsGuildPresences = IntentsGuildPresences := by
  decide

/-- C3 (amended): for a non-negative `retry_after` value of seconds whose
nanosecond total fits in `int64`, the decoded duration is the `Modf`
whole-seconds-plus-truncated-milliseconds decomposition, and converting it
back to seconds matches the source value to within one millisecond. -/
theorem retryAfterDuration_millisecond_fidelity (q : ℚ) (h0 : 0 ≤ q)
    (hb : q * 1000000000 < 2 ^ 63) :
    retryAfterDuration q =
      goTrunc q * 1000000000 + goTrunc ((q - (goTrunc q : ℚ)) * 1000) * 1000000 ∧
    0 ≤ q - (retryAfterDuration q : ℚ) / 1000000000 ∧
    q - (retryAfterDuration q : ℚ) / 1000000000 < 1 / 1000 := by
  have hg : goTrunc q = ⌊q⌋ := if_pos h0
  have hwle : ((⌊q⌋ : ℤ) : ℚ) ≤ q := Int.floor_le q
  have hwlt : q < ⌊q⌋ + 1 := Int.lt_floor_add_one q
  have hw0 : (0 : ℤ) ≤ ⌊q⌋ := Int.floor_nonneg.mpr h0
  have hfrac0 : (0 : ℚ) ≤ q - ⌊q⌋ := by linarith
  have hfg : goTrunc ((q - ((⌊q⌋ : ℤ) : ℚ)) * 1000) = ⌊(q - ((⌊q⌋ : ℤ) : ℚ)) * 1000⌋ :=
    if_pos (mul_nonneg hfrac0 (by norm_num))
  have ht0 : (0 : ℤ) ≤ ⌊(q - ((⌊q⌋ : ℤ) : ℚ)) * 1000⌋ :=
    Int.floor_nonneg.mpr (mul_nonneg hfrac0 (by norm_num))
  have htle : ((⌊(q - ((⌊q⌋ : ℤ) : ℚ)) * 1000⌋ : ℤ) : ℚ) ≤ (q - ((⌊q⌋ : ℤ) : ℚ)) * 1000 :=
    Int.floor_le _
  have htlt : (q - ((⌊q⌋ : ℤ) : ℚ)) * 1000 < ⌊(q - ((⌊q⌋ : ℤ) : ℚ)) * 1000⌋ + 1 :=
    Int.lt_floor_add_one _
  have hw0q : (0 : ℚ) ≤ ((⌊q⌋ : ℤ) : ℚ) := by exact_mod_cast hw0
  have hAq : ((⌊q⌋ : ℤ) : ℚ) * 1000000000 < 2 ^ 63 := by nlinarith
  have hA2 : ⌊q⌋ * 1000000000 < 2 ^ 63 := by exact_mod_cast hAq
  have hA0 : (0 : ℤ) ≤ ⌊q⌋ * 1000000000 := by positivity
  have hBq : ((⌊(q - ((⌊q⌋ : ℤ) : ℚ)) * 1000⌋ : ℤ) : ℚ) * 1000000 < 2 ^ 63 := by nlinarith
  have hB2 : ⌊(q - ((⌊q⌋ : ℤ) : ℚ)) * 1000⌋ * 1000000 < 2 ^ 63 := by exact_mod_cast hBq
  have hB0 : (0 : ℤ) ≤ ⌊(q - ((⌊q⌋ : ℤ) : ℚ)) * 1000⌋ * 1000000 := by positivity
  have hSq : ((⌊q⌋ : ℤ) : ℚ) * 1000000000 +
      ((⌊(q - ((⌊q⌋ : ℤ) : ℚ)) * 1000⌋ : ℤ) : ℚ) * 1000000 < 2 ^ 63 := by nlinarith
  have hS2 : ⌊q⌋ * 1000000000 + ⌊(q - ((⌊q⌋ : ℤ) : ℚ)) * 1000⌋ * 1000000 < 2 ^ 63 := by
    exact_mod_cast hSq
  have hS0 : (0 : ℤ) ≤ ⌊q⌋ * 1000000000 + ⌊(q - ((⌊q⌋ : ℤ) : ℚ)) * 1000⌋ * 1000000 := by
    positivity
  have hval : retryAfterDuration q =
      ⌊q⌋ * 1000000000 + ⌊(q - ((⌊q⌋ : ℤ) : ℚ)) * 1000⌋ * 1000000 := by
    rw [retryAfterDuration, hg, hfg,
      wrap64_eq_of_bounds (by linarith) hA2,
      wrap64_eq_of_bounds (by linarith) hB2,
      wrap64_eq_of_bounds (by linarith) hS2]
  have hsec : ((retryAfterDuration q : ℤ) : ℚ) / 1000000000 =
      ((⌊q⌋ : ℤ) : ℚ) + ((⌊(q - ((⌊q⌋ : ℤ) : ℚ)) * 1000⌋ : ℤ) : ℚ) / 1000 := by
    rw [hval]
    push_cast
    ring
  refine ⟨by rw [hval, hg, hfg], ?_, ?_⟩
  · rw [hsec]
    linarith
  · rw [hsec]
    linarith

/-- C3 (counterexample to the claim as stated): `retry_after = 10^10` seconds
is non-negative and decodes successfully, but the `int64` nanosecond
multiplication wraps, so the decoded duration converted back to seconds is
nowhere near the source value. -/
theorem retryAfterDuration_overflow_cex :
    (0 : ℚ) ≤ 10000000000 ∧
    retryAfterDuration 10000000000 = -8446744073709551616 ∧
    ¬ |(10000000000 : ℚ) - (retryAfterDuration 10000000000 : ℚ) / 1000000000| ≤ 1 / 1000 := by
  have h : retryAfterDuration 10000000000 = -8446744073709551616 := by
    norm_num [retryAfterDuration, goTrunc, wrap64]
  refine ⟨by norm_num, h, ?_⟩
  rw [h, abs_of_nonneg (by norm_num)]
  norm_num

/-- C3 witness: the fidelity theorem applied at `retry_after = 1.5`. -/
theorem retryAfterDuration_millisecond_fidelity_witness :
    (0 : ℚ) ≤ 3 / 2 ∧ (3 / 2 : ℚ) * 1000000000 < 2 ^ 63 ∧
    (retryAfterDuration (3 / 2) =
        goTrunc (3 / 2) * 1000000000 +
          goTrunc ((3 / 2 - (goTrunc (3 / 2) : ℚ)) * 1000) * 1000000 ∧
      0 ≤ 3 / 2 - (retryAfterDuration (3 / 2) : ℚ) / 1000000000 ∧
      3 / 2 - (retryAfterDuration (3 / 2) : ℚ) / 1000000000 < 1 / 1000) :=
  ⟨by norm_num, by norm_num,
    retryAfterDuration_millisecond_fidelity (3 / 2) (by norm_num) (by norm_num)⟩

/-- C4: decoding `retry_after = 1.5` yields exactly 1 second + 500
milliseconds of nanoseconds, and decoding `retry_after = 0.0` yields the zero
duration; `Bucket` and `Message` are copied through. -/
theorem retryAfter_decode_concrete :
    TooManyRequests.unmarshalJSON ⟨"", "", 0⟩ (.ok ⟨"bucket", "msg", 3 / 2⟩) =
      (⟨"bucket", "msg", 1 * 1000000000 + 500 * 1000000⟩, none) ∧
    TooManyRequests.unmarshalJSON ⟨"", "", 0⟩ (.ok ⟨"bucket", "msg", 0⟩) =
      (⟨"bucket", "msg", 0⟩, none) := by
  constructor <;>
    norm_num [TooManyRequests.unmarshalJSON, retryAfterDuration, goTrunc, wrap64,
      Prod.mk.injEq, TooManyRequests.mk.injEq]

/-- C5: `TimeStamps` decoding truncates (never rounds) the fractional part of
the wire's floating-point millisecond timestamps: `1609459200000.0` decodes to
`1609459200000` exactly and `1609459200500.7` truncates to `1609459200500`. -/
theorem timestamps_decode_truncates :
    TimeStamps.unmarshalJSON ⟨0, 0⟩ (.ok ⟨16094592005007 / 10, 1609459200000⟩) =
      (⟨1609459200500, 1609459200000⟩, none) := by
  norm_num [TimeStamps.unmarshalJSON, goTrunc, Prod.mk.injEq, TimeStamps.mk.injEq]

/-- C6: `hasPermission mask bit` is true iff `mask &&& bit = bit`, and in
particular false whenever the mask holds only part of a multi-bit argument. -/
theorem hasPermission_iff_and_eq (mask bit : Nat) (hm : mask < 2 ^ 64)
    (hb : bit < 2 ^ 64) :
    (hasPermission mask bit = true ↔ mask &&& bit = bit) ∧
    (mask &&& bit ≠ bit → hasPermission mask bit = false) := by
  constructor
  · simp [hasPermission]
  · intro h
    simpa [hasPermission] using h

/-- C6 witness: a mask holding only bit 1 does not pass a check for the
two-bit argument `6 = 2 ||| 4`. -/
theorem hasPermission_iff_and_eq_witness :
    (2 : Nat) < 2 ^ 64 ∧ (6 : Nat) < 2 ^ 64 ∧ hasPermission 2 6 = false :=
  ⟨by decide, by decide,
    (hasPermission_iff_and_eq 2 6 (by decide) (by decide)).2 (by decide)⟩

/-- C7: the mention formatters produce exactly the platform inline-mention
forms, with no validation or transformation of the identifier. -/
theorem mention_formats (id : String) :
    Channel.Mention ⟨id⟩ = "<#" ++ id ++ ">" ∧
    Role.Mention ⟨id⟩ = "<@&" ++ id ++ ">" ∧
    Member.Mention ⟨some ⟨id⟩⟩ = some ("<@!" ++ id ++ ">") :=
  ⟨rfl, rfl, rfl⟩

/-- C8: both custom unmarshallers return an error exactly when the underlying
parse of the wire-shaped shadow struct fails, propagate that error unchanged
and leave the target untouched on failure, and return no error on success. -/
theorem unmarshal_error_propagation :
    (∀ (t : TimeStamps) (e : String),
      TimeStamps.unmarshalJSON t (.error e) = (t, some e)) ∧
    (∀ (t : TimeStamps) (w : TimeStampsWire),
      (TimeStamps.unmarshalJSON t (.ok w)).2 = none) ∧
    (∀ (t : TooManyRequests) (e : String),
      TooManyRequests.unmarshalJSON t (.error e) = (t, some e)) ∧
    (∀ (t : TooManyRequests) (w : TooManyRequestsWire),
      (TooManyRequests.unmarshalJSON t (.ok w)).2 = none) :=
  ⟨fun _ _ => rfl, fun _ _ => rfl, fun _ _ => rfl, fun _ _ => rfl⟩

/-- C9: `Channel.Mention` and `Role.Mention` are total over every receiver,
while `Member.Mention` dereferences the `User` pointer: it has no result for a
nil `User` and produces the mention form exactly when `User` is non-nil. -/
theorem mention_totality :
    (∀ c : Channel, Channel.Mention c = "<#" ++ c.ID ++ ">") ∧
    (∀ r : Role, Role.Mention r = "<@&" ++ r.ID ++ ">") ∧
    (∀ m : Member, m.User = none → Member.Mention m = none) ∧
    (∀ (m : Member) (u : User), m.User = some u →
      Member.Mention m = some ("<@!" ++ u.ID ++ ">")) := by
  refine ⟨fun c => rfl, fun r => rfl, ?_, ?_⟩
  · intro m h
    simp [Member.Mention, h]
  · intro m u h
    simp [Member.Mention, h]

/-- C9 witness: a member with nil `User` has no mention; one with a user does. -/
theorem mention_totality_witness :
    Member.Mention ⟨none⟩ = none ∧
    Member.Mention ⟨some ⟨"789"⟩⟩ = some ("<@!" ++ "789" ++ ">") :=
  ⟨mention_totality.2.2.1 ⟨none⟩ rfl, mention_totality.2.2.2 ⟨some ⟨"789"⟩⟩ ⟨"789"⟩ rfl⟩

/-- C10 (amended): on a successful parse whose `created_at * 10^6` fits in
`int64`, `Activity.unmarshalJSON` sets `CreatedAt` to the instant
`created_at * 1,000,000` nanoseconds after the epoch and copies every other
wire field unchanged. -/
theorem activity_unmarshal_ok (a : Activity) (w : ActivityWire)
    (h1 : -(2 ^ 63) ≤ w.CreatedAt * 1000000) (h2 : w.CreatedAt * 1000000 < 2 ^ 63) :
    Activity.unmarshalJSON a (.ok w) =
      ({ Name := w.Name, Type' := w.Type', URL := w.URL,
         CreatedAt := w.CreatedAt * 1000000,
         ApplicationID := w.ApplicationID, State := w.State, Details := w.Details,
         Timestamps := w.Timestamps, Emoji := w.Emoji, Party := w.Party,
         Assets := w.Assets, Secrets := w.Secrets, Instance := w.Instance,
         Flags := w.Flags }, none) := by
  simp only [Activity.unmarshalJSON, wrap64_eq_of_bounds h1 h2]

/-- C10 (counterexample to the claim as stated): a payload with
`created_at = 10^13` milliseconds decodes successfully, but the `int64`
multiplication `created_at * 1000000` wraps, so `CreatedAt` is not the instant
`created_at * 1,000,000` nanoseconds after the epoch. -/
theorem activity_unmarshal_overflow_cex :
    (Activity.unmarshalJSON activityZero (.ok activityWireBig)).2 = none ∧
    (Activity.unmarshalJSON activityZero (.ok activityWireBig)).1.CreatedAt =
      -8446744073709551616 ∧
    activityWireBig.CreatedAt * 1000000 ≠ -8446744073709551616 := by
  refine ⟨rfl, ?_, by norm_num [activityWireBig]⟩
  norm_num [Activity.unmarshalJSON, activityZero, activityWireBig, wrap64]

/-- C10 witness: the amended theorem applied to a 2021 timestamp. -/
theorem activity_unmarshal_ok_witness :
    -(2 ^ 63) ≤ activityWire2021.CreatedAt * 1000000 ∧
    activityWire2021.CreatedAt * 1000000 < 2 ^ 63 ∧
    Activity.unmarshalJSON activityZero (.ok activityWire2021) =
      ({ Name := activityWire2021.Name, Type' := activityWire2021.Type',
         URL := activityWire2021.URL,
         CreatedAt := activityWire2021.CreatedAt * 1000000,
         ApplicationID := activityWire2021.ApplicationID,
         State := activityWire2021.State, Details := activityWire2021.Details,
         Timestamps := activityWire2021.Timestamps, Emoji := activityWire2021.Emoji,
         Party := activityWire2021.Party, Assets := activityWire2021.Assets,
         Secrets := activityWire2021.Secrets, Instance := activityWire2021.Instance,
         Flags := activityWire2021.Flags }, none) :=
  ⟨by decide, by decide,
    activity_unmarshal_ok activityZero activityWire2021 (by decide) (by decide)⟩

end Discordgo
